import Mathlib

/-!
Verification of the Tourist Hub basic Python API client
(`docs/api-client-examples/python/basic_client.py`).

The client is embedded shallowly: the mutable session fields of
`TouristHubClient` become a record, the network becomes an oracle
`Server : Nat → NetEvent` giving the event produced by the n-th network
call of a run, and the methods become state-passing functions over a
`World` that also records the requests actually handed to the transport
and the log lines emitted.  Exceptions become an `Outcome` value;
the mutual recursion `_make_request` ↔ `refresh_access_token` ↔ `logout`
of the source is embedded with an explicit fuel argument, `diverge`
standing for recursion that no finite fuel completes.
-/

namespace TouristHub

/-- JSON values exchanged with the service; objects are association lists with
unique keys in insertion order, as Python dicts. -/
inductive Json where
  | null
  | bool (b : Bool)
  | num (n : Int)
  | str (s : String)
  | arr (elems : List Json)
  | obj (fields : List (String × Json))

mutual

/-- Python `repr` of a JSON value, used when `str()` hits a container. -/
def Json.pyRepr : Json → String
  | .null => "None"
  | .bool true => "True"
  | .bool false => "False"
  | .num n => toString n
  | .str s => "'" ++ s ++ "'"
  | .arr xs => "[" ++ Json.pyReprList xs ++ "]"
  | .obj fs => "\x7b" ++ Json.pyReprFields fs ++ "\x7d"

/-- Comma-separated reprs of list elements. -/
def Json.pyReprList : List Json → String
  | [] => ""
  | [x] => Json.pyRepr x
  | x :: xs => Json.pyRepr x ++ ", " ++ Json.pyReprList xs

/-- Comma-separated reprs of dict entries. -/
def Json.pyReprFields : List (String × Json) → String
  | [] => ""
  | [(k, v)] => "'" ++ k ++ "': " ++ Json.pyRepr v
  | (k, v) :: fs => "'" ++ k ++ "': " ++ Json.pyRepr v ++ ", " ++ Json.pyReprFields fs

end

/-- Python `str()` of a value, as f-string formatting applies it. -/
def Json.pyStr : Json → String
  | .str s => s
  | j => Json.pyRepr j

/-- Python truthiness of an optionally-stored value: `None`, `''`, `0`, `[]`
and empty dicts are falsy.  The source guards (`if self.access_token:`,
`if not self.refresh_token:`) use exactly this. -/
def truthy : Option Json → Bool
  | none => false
  | some .null => false
  | some (.bool b) => b
  | some (.num n) => n != 0
  | some (.str s) => s != ""
  | some (.arr xs) => !xs.isEmpty
  | some (.obj fs) => !fs.isEmpty

/-- The Python exceptions the embedded code can raise. -/
inductive PyErr where
  | httpError (status : Nat) (body : Option Json)
  | transportError (msg : String)
  | keyError (key : String)
  | typeError (msg : String)
  | valueError (msg : String)

/-- Python subscript `d[k]` on a decoded JSON value: `KeyError` when the key is
missing, `TypeError` when the value is not a dict. -/
def Json.getItem : Json → String → Except PyErr Json
  | .obj fs, k =>
    match fs.lookup k with
    | some v => .ok v
    | none => .error (.keyError k)
  | _, k => .error (.typeError ("value is not subscriptable: " ++ k))

/-- Header dictionaries: association lists with unique keys. -/
abbrev Headers := List (String × String)

/-- Python `d[k] = v`: replace the existing entry in place or append. -/
def hSet (hs : Headers) (k v : String) : Headers :=
  if hs.any (fun p => p.1 == k) then
    hs.map (fun p => if p.1 == k then (k, v) else p)
  else
    hs ++ [(k, v)]

/-- Python `dict.update`: fold every entry of the update into the base. -/
def hUpdate (hs upd : Headers) : Headers :=
  upd.foldl (fun acc p => hSet acc p.1 p.2) hs

/-- Python `k in d`. -/
def hContains (hs : Headers) (k : String) : Bool :=
  hs.any (fun p => p.1 == k)

/-- Header lookup. -/
def hGet (hs : Headers) (k : String) : Option String :=
  hs.lookup k

/-- Python `del d[k]` (guarded by `k in d` at its only call site). -/
def hDel (hs : Headers) (k : String) : Headers :=
  hs.filter (fun p => p.1 != k)

/-- One network interaction as the client sees it: an HTTP response
(status and decoded JSON body, `none` for an empty body), or the transport
raising a `RequestException` (connection refused, timeout, ...). -/
inductive NetEvent where
  | resp (status : Nat) (body : Option Json)
  | transportFail (msg : String)

/-- The server oracle: the event produced by the n-th network call of the run. -/
abbrev Server := Nat → NetEvent

/-- A request handed to the transport, after `requests.Session` merged its
default headers underneath the per-call headers and — for multipart calls with
no Content-Type set yet — added the multipart Content-Type itself. -/
structure SentRequest where
  method : String
  url : String
  headers : Headers
  jsonBody : Option Json
  params : Option Json
  formData : Option Json
  isMultipart : Bool

/-- The session state of `TouristHubClient`: the three credential fields and
the `requests.Session` default headers set in `__init__`.  Tokens are stored
as whatever JSON value the response carried, as the Python attributes are. -/
structure TouristHubClient where
  base_url : String
  access_token : Option Json
  refresh_token : Option Json
  user : Option Json
  sessionHeaders : Headers

/-- Python `s.rstrip('/')`: drop every trailing slash. -/
def rstripSlashes (s : String) : String :=
  String.mk ((s.data.reverse.dropWhile (fun c => c == '/')).reverse)

/-- `TouristHubClient.__init__`: strip trailing slashes from the base address,
hold no credentials, and force JSON headers on the session. -/
def TouristHubClient.init (base_url : String) : TouristHubClient :=
  { base_url := rstripSlashes base_url
  , access_token := none
  , refresh_token := none
  , user := none
  , sessionHeaders := [("Content-Type", "application/json"), ("Accept", "application/json")] }

/-- `_get_headers`: a Bearer Authorization header when an access token is held
(Python truthiness), rendered by f-string `str()`. -/
def TouristHubClient.get_headers (c : TouristHubClient) : Headers :=
  if truthy c.access_token then
    [("Authorization", "Bearer " ++ (c.access_token.getD Json.null).pyStr)]
  else
    []

/-- `is_authenticated`: `self.access_token is not None` — an identity test
against `None`, not a truthiness test. -/
def TouristHubClient.is_authenticated (c : TouristHubClient) : Bool :=
  c.access_token.isSome

/-- `get_current_user`. -/
def TouristHubClient.get_current_user (c : TouristHubClient) : Option Json :=
  c.user

/-- The run state threaded through the embedded code. -/
structure World where
  client : TouristHubClient
  calls : Nat
  sent : List SentRequest
  logs : List String

/-- Result of running embedded code: a normal return, a raised exception, or
fuel exhaustion, standing for recursion no finite fuel completes. -/
inductive Outcome (α : Type) where
  | ok (val : α)
  | exn (e : PyErr)
  | diverge

/-- The `**kwargs` a caller hands to `_make_request`; the public verb methods
pass at most a json payload or query params, never extra headers. -/
structure ReqKwargs where
  headers : Headers := []
  jsonBody : Option Json := none
  params : Option Json := none

/-- `requests.Session.request` / `.post`: merge the session's default headers
underneath the per-call headers; when multipart files are present, set the
multipart Content-Type only if no Content-Type is present yet (requests'
`prepare_content_type_header` keeps an existing one).  The outgoing request is
recorded and the next server event consumed; a `transportFail` event is the
call raising a `RequestException`.  Transport-internal defaults irrelevant to
the client's logic (User-Agent, the exact multipart boundary) are not modelled. -/
def sessionRequest (srv : Server) (w : World) (method url : String) (headers : Headers)
    (jsonBody : Option Json) (params : Option Json) (formData : Option Json)
    (isMultipart : Bool) : World × Except PyErr (Nat × Option Json) :=
  let eff := hUpdate w.client.sessionHeaders headers
  let eff := if isMultipart && !hContains eff "Content-Type" then
      hSet eff "Content-Type" "multipart/form-data; boundary=generated"
    else eff
  let req : SentRequest := ⟨method, url, eff, jsonBody, params, formData, isMultipart⟩
  let w1 : World := { w with sent := w.sent ++ [req], calls := w.calls + 1 }
  match srv w.calls with
  | .resp status body => (w1, .ok (status, body))
  | .transportFail msg => (w1, .error (.transportError msg))

/-- `_handle_response`: `raise_for_status` raises `HTTPError` exactly for
statuses 400–599 (requests semantics); otherwise the decoded body is returned,
an empty body decoding to the empty dict.  The error-envelope inspection in the
source only logs diagnostics and is not otherwise observable. -/
def handle_response (status : Nat) (body : Option Json) : Except PyErr Json :=
  if 400 ≤ status && status < 600 then .error (.httpError status body)
  else .ok (body.getD (Json.obj []))

mutual

/-- `_make_request`: build headers from the kwargs plus `_get_headers`, execute,
and on an `HTTPError` with status 401 while a refresh token is held, run
`refresh_access_token` and retry once — the whole refresh-and-retry block sits
in one `try`, so any failure inside it (a failed refresh, but also a failed
retry) triggers `logout()` and re-raises that failure.  Any other `HTTPError`
and all transport errors propagate unchanged. -/
def make_request (srv : Server) : Nat → World → String → String → ReqKwargs →
    World × Outcome Json
  | 0, w, _, _, _ => (w, .diverge)
  | fuel + 1, w, method, endpoint, kwargs =>
    let url := w.client.base_url ++ endpoint
    let headers := hUpdate kwargs.headers w.client.get_headers
    match sessionRequest srv w method url headers kwargs.jsonBody kwargs.params none false with
    | (w1, .error e) => (w1, .exn e)
    | (w1, .ok (status, body)) =>
      match handle_response status body with
      | .ok decoded => (w1, .ok decoded)
      | .error e =>
        match e with
        | .httpError st _ =>
          if st == 401 && truthy w1.client.refresh_token then
            let w2 : World :=
              { w1 with logs := w1.logs ++ ["Access token expired, attempting refresh..."] }
            match refresh_access_token srv fuel w2 with
            | (w3, .diverge) => (w3, .diverge)
            | (w3, .exn refreshError) =>
              let w4 : World := { w3 with logs := w3.logs ++ ["Token refresh failed"] }
              match logout srv fuel w4 with
              | (w5, .diverge) => (w5, .diverge)
              | (w5, _) => (w5, .exn refreshError)
            | (w3, .ok _) =>
              let headers2 := hUpdate headers w3.client.get_headers
              match sessionRequest srv w3 method url headers2 kwargs.jsonBody kwargs.params
                  none false with
              | (w4, .error e2) =>
                let w5 : World := { w4 with logs := w4.logs ++ ["Token refresh failed"] }
                match logout srv fuel w5 with
                | (w6, .diverge) => (w6, .diverge)
                | (w6, _) => (w6, .exn e2)
              | (w4, .ok (st2, bd2)) =>
                match handle_response st2 bd2 with
                | .ok decoded2 => (w4, .ok decoded2)
                | .error e2 =>
                  let w5 : World := { w4 with logs := w4.logs ++ ["Token refresh failed"] }
                  match logout srv fuel w5 with
                  | (w6, .diverge) => (w6, .diverge)
                  | (w6, _) => (w6, .exn e2)
          else
            (w1, .exn e)
        | _ => (w1, .exn e)

/-- `refresh_access_token`: `ValueError` before any network call when no refresh
token is held (truthiness); otherwise POST the refresh token through
`_make_request` and store `response['accessToken']` then
`response['refreshToken']` in that order, so a body with only the first key
still mutates the access token before the `KeyError` propagates. -/
def refresh_access_token (srv : Server) : Nat → World → World × Outcome Json
  | 0, w => (w, .diverge)
  | fuel + 1, w =>
    if truthy w.client.refresh_token then
      let rtok := w.client.refresh_token.getD Json.null
      match make_request srv fuel w "POST" "/api/auth/refresh"
          { jsonBody := some (Json.obj [("refreshToken", rtok)]) } with
      | (w1, .diverge) => (w1, .diverge)
      | (w1, .exn e) => (w1, .exn e)
      | (w1, .ok resp) =>
        match resp.getItem "accessToken" with
        | .error e => (w1, .exn e)
        | .ok newAccess =>
          let w2 : World := { w1 with client := { w1.client with access_token := some newAccess } }
          match resp.getItem "refreshToken" with
          | .error e => (w2, .exn e)
          | .ok newRefresh =>
            let w3 : World :=
              { w2 with client := { w2.client with refresh_token := some newRefresh }
                      , logs := w2.logs ++ ["Access token refreshed successfully"] }
            (w3, .ok resp)
    else
      (w, .exn (.valueError "No refresh token available"))

/-- `logout`: best-effort server notification only when a refresh token is held,
its failure logged and swallowed; the `finally` block then clears all three
session fields.  When the notification call never returns, the `finally` never
runs, so divergence passes through without clearing. -/
def logout (srv : Server) : Nat → World → World × Outcome Unit
  | 0, w => (w, .diverge)
  | fuel + 1, w =>
    let notify :=
      if truthy w.client.refresh_token then
        let rtok := w.client.refresh_token.getD Json.null
        make_request srv fuel w "POST" "/api/auth/logout"
          { jsonBody := some (Json.obj [("refreshToken", rtok)]) }
      else
        (w, .ok (Json.obj []))
    match notify with
    | (w1, .diverge) => (w1, .diverge)
    | (w1, r) =>
      let w2 : World := match r with
        | .exn _ => { w1 with logs := w1.logs ++ ["Logout error"] }
        | _ => w1
      let w3 : World :=
        { w2 with client := { w2.client with access_token := none
                                           , refresh_token := none
                                           , user := none }
                , logs := w2.logs ++ ["Logged out successfully"] }
      (w3, .ok ())

end

/-- `login`: POST the credentials, then store `accessToken`, `refreshToken` and
`user` from the response in that order; the success log line subscripts the
stored user record (`firstName`, `lastName`, `userType`), so a malformed user
record raises out of `login` after the session fields were already assigned. -/
def login (srv : Server) (fuel : Nat) (w : World) (email_address password : String) :
    World × Outcome Json :=
  match make_request srv fuel w "POST" "/api/auth/login"
      { jsonBody := some (Json.obj
          [("emailAddress", Json.str email_address), ("password", Json.str password)]) } with
  | (w1, .diverge) => (w1, .diverge)
  | (w1, .exn e) => ({ w1 with logs := w1.logs ++ ["Login failed"] }, .exn e)
  | (w1, .ok resp) =>
    match resp.getItem "accessToken" with
    | .error e => ({ w1 with logs := w1.logs ++ ["Login failed"] }, .exn e)
    | .ok tok =>
      let w2 : World := { w1 with client := { w1.client with access_token := some tok } }
      match resp.getItem "refreshToken" with
      | .error e => ({ w2 with logs := w2.logs ++ ["Login failed"] }, .exn e)
      | .ok rtok =>
        let w3 : World := { w2 with client := { w2.client with refresh_token := some rtok } }
        match resp.getItem "user" with
        | .error e => ({ w3 with logs := w3.logs ++ ["Login failed"] }, .exn e)
        | .ok usr =>
          let w4 : World := { w3 with client := { w3.client with user := some usr } }
          match usr.getItem "firstName" with
          | .error e => ({ w4 with logs := w4.logs ++ ["Login failed"] }, .exn e)
          | .ok _ =>
            match usr.getItem "lastName" with
            | .error e => ({ w4 with logs := w4.logs ++ ["Login failed"] }, .exn e)
            | .ok _ =>
              match usr.getItem "userType" with
              | .error e => ({ w4 with logs := w4.logs ++ ["Login failed"] }, .exn e)
              | .ok _ =>
                ({ w4 with logs := w4.logs ++ ["Logged in"] }, .ok resp)

/-- `upload_file`: build the auth headers, delete Content-Type from them when
present (it never is — `_get_headers` only ever yields Authorization), then POST
multipart through `session.post`, bypassing `_make_request` entirely: no retry.
Opening the local file is modelled as succeeding; its bytes do not appear. -/
def upload_file (srv : Server) (w : World) (endpoint : String)
    (additional_data : Option Json) : World × Outcome Json :=
  let headers0 := w.client.get_headers
  let headers1 := if hContains headers0 "Content-Type" then hDel headers0 "Content-Type"
    else headers0
  let url := w.client.base_url ++ endpoint
  let data := if truthy additional_data then additional_data.getD (Json.obj [])
    else Json.obj []
  match sessionRequest srv w "POST" url headers1 none none (some data) true with
  | (w1, .error e) => ({ w1 with logs := w1.logs ++ ["File upload failed"] }, .exn e)
  | (w1, .ok (st, bd)) =>
    match handle_response st bd with
    | .ok j => (w1, .ok j)
    | .error e => ({ w1 with logs := w1.logs ++ ["File upload failed"] }, .exn e)

/-- `get`: GET through `_make_request` with query params. -/
def getVerb (srv : Server) (fuel : Nat) (w : World) (endpoint : String)
    (params : Option Json) : World × Outcome Json :=
  make_request srv fuel w "GET" endpoint { params := params }

/-- `post`: POST through `_make_request` with a JSON body. -/
def postVerb (srv : Server) (fuel : Nat) (w : World) (endpoint : String)
    (data : Option Json) : World × Outcome Json :=
  make_request srv fuel w "POST" endpoint { jsonBody := data }

/-- `put`: PUT through `_make_request` with a JSON body. -/
def putVerb (srv : Server) (fuel : Nat) (w : World) (endpoint : String)
    (data : Option Json) : World × Outcome Json :=
  make_request srv fuel w "PUT" endpoint { jsonBody := data }

/-- `delete`: DELETE through `_make_request`. -/
def deleteVerb (srv : Server) (fuel : Nat) (w : World) (endpoint : String) :
    World × Outcome Json :=
  make_request srv fuel w "DELETE" endpoint {}

/-- A fresh world around a client. -/
def World.fresh (c : TouristHubClient) : World :=
  { client := c, calls := 0, sent := [], logs := [] }

/-! Concrete scenario material used by witnesses and counterexamples. -/

/-- A client that has logged in: tokens `A1`/`R1`, a stored user record. -/
def clientA : TouristHubClient :=
  { TouristHubClient.init "http://localhost:3000" with
      access_token := some (Json.str "A1")
    , refresh_token := some (Json.str "R1")
    , user := some (Json.obj [("userId", Json.str "U1")]) }

/-- A refresh response body carrying a fresh token pair `A2`/`R2`. -/
def refreshBody : Json :=
  Json.obj [("accessToken", Json.str "A2"), ("refreshToken", Json.str "R2")]

/-- A server answering 401 to every request, the refresh endpoint included. -/
def srv401 : Server := fun _ => NetEvent.resp 401 none

/-- A server driving the refresh-then-retry path into a failing retry:
401, then a successful refresh, then 500 on the retry, then 200. -/
def srvRetry500 : Server := fun n =>
  match n with
  | 0 => NetEvent.resp 401 none
  | 1 => NetEvent.resp 200 (some refreshBody)
  | 2 => NetEvent.resp 500 none
  | _ => NetEvent.resp 200 none

/-- The error envelope a rejected refresh comes back with. -/
def refreshRejectedBody : Json :=
  Json.obj [("error",
    Json.obj [("code", Json.str "UNAUTHORIZED"), ("message", Json.str "invalid refresh token")])]

/-- A server where a 401 is followed by the refresh itself being rejected
with 400, and any further call answered 200. -/
def srvRefreshRejected : Server := fun n =>
  match n with
  | 0 => NetEvent.resp 401 none
  | 1 => NetEvent.resp 400 (some refreshRejectedBody)
  | _ => NetEvent.resp 200 none

/-- The world `_make_request` reaches right after a first 401 response: one
more network call made, the original request recorded, the refresh-attempt
log line emitted, the client untouched. -/
def afterFirst401 (w : World) (m ep : String) (kw : ReqKwargs) : World :=
  { w with
      calls := w.calls + 1
    , sent := w.sent ++ [{ method := m
                         , url := w.client.base_url ++ ep
                         , headers := hUpdate w.client.sessionHeaders
                             (hUpdate kw.headers w.client.get_headers)
                         , jsonBody := kw.jsonBody
                         , params := kw.params
                         , formData := none
                         , isMultipart := false }]
    , logs := w.logs ++ ["Access token expired, attempting refresh..."] }

/-- A server answering 304 Not Modified with a body to every request. -/
def srv304 : Server := fun _ => NetEvent.resp 304 (some (Json.obj [("cached", Json.bool true)]))

/-- A server answering every request with an empty 200. -/
def srvOk200 : Server := fun _ => NetEvent.resp 200 none

/-- A server answering every request with a refresh-shaped 200 body. -/
def srvRefreshOk : Server := fun _ => NetEvent.resp 200 (some refreshBody)

/-- A transport that raises a connection error on every call. -/
def srvDown : Server := fun _ => NetEvent.transportFail "connection refused"

/-- The request record a JSON-mode call of the client produces once the
session defaults are merged in: forced JSON headers plus a Bearer token. -/
def jsonReq (m u tok : String) (payload pr : Option Json) : SentRequest :=
  { method := m
  , url := u
  , headers := [ ("Content-Type", "application/json")
               , ("Accept", "application/json")
               , ("Authorization", "Bearer " ++ tok)]
  , jsonBody := payload
  , params := pr
  , formData := none
  , isMultipart := false }

/-- A server driving one full refresh-and-retry: 401, refresh ok with
`A2`/`R2`, a 200 retry answer, then 500. -/
def srvRetryOk : Server := fun n =>
  match n with
  | 0 => NetEvent.resp 401 none
  | 1 => NetEvent.resp 200 (some refreshBody)
  | 2 => NetEvent.resp 200 (some (Json.obj [("ok", Json.bool true)]))
  | _ => NetEvent.resp 500 none

/-- A server answering every request with a well-formed login body. -/
def srvLoginOk : Server := fun _ =>
  NetEvent.resp 200 (some (Json.obj
    [ ("accessToken", Json.str "A1")
    , ("refreshToken", Json.str "R1")
    , ("user", Json.obj
        [ ("userId", Json.str "U1")
        , ("firstName", Json.str "Jane")
        , ("lastName", Json.str "Doe")
        , ("userType", Json.str "TOURIST")])]))

/-! Theorems settling the claims. -/

/-- C10: `logout()` called while no refresh token is held performs no network
call at all and still clears all three session fields; it never raises, and it
is idempotent — calling it again on the now-unauthenticated client succeeds,
stays off the network, and leaves every field absent. -/
theorem logout_idempotent_no_network (srv : Server) (w : World) (fuel fuel2 : Nat)
    (hrt : truthy w.client.refresh_token = false) :
    (logout srv (fuel + 1) w).2 = Outcome.ok () ∧
    (logout srv (fuel + 1) w).1.calls = w.calls ∧
    (logout srv (fuel + 1) w).1.sent = w.sent ∧
    (logout srv (fuel + 1) w).1.client.access_token = none ∧
    (logout srv (fuel + 1) w).1.client.refresh_token = none ∧
    (logout srv (fuel + 1) w).1.client.user = none ∧
    (logout srv (fuel2 + 1) (logout srv (fuel + 1) w).1).2 = Outcome.ok () ∧
    (logout srv (fuel2 + 1) (logout srv (fuel + 1) w).1).1.calls = w.calls ∧
    (logout srv (fuel2 + 1) (logout srv (fuel + 1) w).1).1.sent = w.sent ∧
    (logout srv (fuel2 + 1) (logout srv (fuel + 1) w).1).1.client.access_token = none ∧
    (logout srv (fuel2 + 1) (logout srv (fuel + 1) w).1).1.client.refresh_token = none ∧
    (logout srv (fuel2 + 1) (logout srv (fuel + 1) w).1).1.client.user = none := by
  have h1 : logout srv (fuel + 1) w =
      ({ w with client := { w.client with access_token := none
                                        , refresh_token := none
                                        , user := none }
              , logs := w.logs ++ ["Logged out successfully"] }, Outcome.ok ()) := by
    simp [logout, hrt]
  rw [h1]
  have h2 : logout srv (fuel2 + 1)
      ({ w with client := { w.client with access_token := none
                                        , refresh_token := none
                                        , user := none }
              , logs := w.logs ++ ["Logged out successfully"] } : World) =
      ({ w with client := { w.client with access_token := none
                                        , refresh_token := none
                                        , user := none }
              , logs := (w.logs ++ ["Logged out successfully"]) ++ ["Logged out successfully"] },
        Outcome.ok ()) := by
    simp [logout, truthy]
  rw [h2]
  refine ⟨rfl, rfl, rfl, rfl, rfl, rfl, rfl, rfl, rfl, rfl, rfl, rfl⟩

/-- C10 witness: logging out a fresh unauthenticated client twice succeeds,
touches the network zero times, and leaves every session field absent. -/
theorem logout_idempotent_no_network_witness :
    (logout srvOk200 3 (World.fresh (TouristHubClient.init "http://localhost:3000"))).2 =
      Outcome.ok () ∧
    (logout srvOk200 3 (World.fresh (TouristHubClient.init "http://localhost:3000"))).1.calls = 0 ∧
    (logout srvOk200 4
      (logout srvOk200 3 (World.fresh (TouristHubClient.init "http://localhost:3000"))).1).2 =
      Outcome.ok () ∧
    (logout srvOk200 4
      (logout srvOk200 3 (World.fresh (TouristHubClient.init "http://localhost:3000"))).1).1.calls =
      0 ∧
    (logout srvOk200 4
      (logout srvOk200 3
        (World.fresh (TouristHubClient.init "http://localhost:3000"))).1).1.client.access_token =
      none := by
  have h := logout_idempotent_no_network srvOk200
    (World.fresh (TouristHubClient.init "http://localhost:3000")) 2 3 rfl
  exact ⟨h.1, h.2.1, h.2.2.2.2.2.2.1, h.2.2.2.2.2.2.2.1, h.2.2.2.2.2.2.2.2.2.1⟩

/-- C9: `refresh_access_token()` with no refresh token held fails immediately
with the configuration `ValueError` and performs no network call and no state
change at all; with a refresh token held, a successful exchange stores the
newly returned access and refresh tokens (one network call, user untouched). -/
theorem refresh_guard_and_store (srv : Server) (w : World) (fuel : Nat) :
    (truthy w.client.refresh_token = false →
      refresh_access_token srv (fuel + 1) w =
        (w, Outcome.exn (PyErr.valueError "No refresh token available"))) ∧
    (∀ (tokA tokR : Json),
      truthy w.client.refresh_token = true →
      srv w.calls = NetEvent.resp 200
        (some (Json.obj [("accessToken", tokA), ("refreshToken", tokR)])) →
      (refresh_access_token srv (fuel + 2) w).2 =
        Outcome.ok (Json.obj [("accessToken", tokA), ("refreshToken", tokR)]) ∧
      (refresh_access_token srv (fuel + 2) w).1.client.access_token = some tokA ∧
      (refresh_access_token srv (fuel + 2) w).1.client.refresh_token = some tokR ∧
      (refresh_access_token srv (fuel + 2) w).1.client.user = w.client.user ∧
      (refresh_access_token srv (fuel + 2) w).1.calls = w.calls + 1) := by
  constructor
  · intro hrt
    simp [refresh_access_token, hrt]
  · intro tokA tokR hrt hsrv
    have e2 : fuel + 2 = (fuel + 1) + 1 := rfl
    rw [e2]
    simp [refresh_access_token, make_request, sessionRequest, handle_response, hrt, hsrv,
      Json.getItem, List.lookup]

/-- C9 witness: refreshing without a token is the immediate configuration
error; refreshing `clientA` against a healthy refresh endpoint stores `A2`/`R2`. -/
theorem refresh_guard_and_store_witness :
    refresh_access_token srvRefreshOk 5 (World.fresh (TouristHubClient.init "u")) =
      (World.fresh (TouristHubClient.init "u"),
        Outcome.exn (PyErr.valueError "No refresh token available")) ∧
    (refresh_access_token srvRefreshOk 5 (World.fresh clientA)).1.client.access_token =
      some (Json.str "A2") ∧
    (refresh_access_token srvRefreshOk 5 (World.fresh clientA)).1.client.refresh_token =
      some (Json.str "R2") ∧
    (refresh_access_token srvRefreshOk 5 (World.fresh clientA)).1.calls = 1 := by
  have h1 := (refresh_guard_and_store srvRefreshOk (World.fresh (TouristHubClient.init "u")) 4).1 rfl
  have h2 := (refresh_guard_and_store srvRefreshOk (World.fresh clientA) 3).2
    (Json.str "A2") (Json.str "R2") rfl rfl
  exact ⟨h1, h2.2.1, h2.2.2.1, h2.2.2.2.2⟩

/-- C6: for every client state holding a refresh token, `logout()` whose
best-effort server notification raises a transport error still returns
normally, logs the notification failure instead of propagating it, and clears
all three session fields afterwards. -/
theorem logout_notify_failure_swallowed (srv : Server) (w : World) (msg : String) (fuel : Nat)
    (hrt : truthy w.client.refresh_token = true)
    (hsrv : srv w.calls = NetEvent.transportFail msg) :
    (logout srv (fuel + 2) w).2 = Outcome.ok () ∧
    (logout srv (fuel + 2) w).1.client.access_token = none ∧
    (logout srv (fuel + 2) w).1.client.refresh_token = none ∧
    (logout srv (fuel + 2) w).1.client.user = none ∧
    (logout srv (fuel + 2) w).1.calls = w.calls + 1 ∧
    (logout srv (fuel + 2) w).1.logs = w.logs ++ ["Logout error", "Logged out successfully"] := by
  have e2 : fuel + 2 = (fuel + 1) + 1 := rfl
  rw [e2]
  simp [logout, make_request, sessionRequest, hrt, hsrv]

/-- C6 witness: `clientA` logging out over a dead transport still ends up
cleared, with the notification failure logged, not raised. -/
theorem logout_notify_failure_swallowed_witness :
    (logout srvDown 5 (World.fresh clientA)).2 = Outcome.ok () ∧
    (logout srvDown 5 (World.fresh clientA)).1.client.access_token = none ∧
    (logout srvDown 5 (World.fresh clientA)).1.client.refresh_token = none ∧
    (logout srvDown 5 (World.fresh clientA)).1.client.user = none ∧
    (logout srvDown 5 (World.fresh clientA)).1.logs =
      ["Logout error", "Logged out successfully"] := by
  have h := logout_notify_failure_swallowed srvDown (World.fresh clientA)
    "connection refused" 3 rfl rfl
  exact ⟨h.1, h.2.1, h.2.2.1, h.2.2.2.1, h.2.2.2.2.2⟩

/-- C5 counterexample: the claim says every non-2xx, non-401 response makes the
routine fail, but a 304 Not Modified (non-2xx, non-401) is decoded and returned
as a success by `_handle_response`, whose `raise_for_status` only raises for
statuses 400–599. -/
theorem non401_error_cx :
    (make_request srv304 10 (World.fresh clientA) "GET" "/api/users" {}).2 =
      Outcome.ok (Json.obj [("cached", Json.bool true)]) ∧
    (make_request srv304 10 (World.fresh clientA) "GET" "/api/users" {}).1.calls = 1 :=
  ⟨rfl, rfl⟩

/-- C5 amended: for every call answered with a status in 400–599 that is either
not 401, or 401 while no refresh token is held, the routine performs zero
retries and no refresh network call (exactly one request total, client state
untouched) and fails with the typed `HTTPError` carrying that status. -/
theorem non401_error_no_retry (srv : Server) (w : World) (m ep : String) (kw : ReqKwargs)
    (st : Nat) (b : Option Json) (fuel : Nat)
    (h0 : srv w.calls = NetEvent.resp st b) (h1 : 400 ≤ st) (h2 : st < 600)
    (h3 : st = 401 → truthy w.client.refresh_token = false) :
    (make_request srv (fuel + 1) w m ep kw).2 = Outcome.exn (PyErr.httpError st b) ∧
    (make_request srv (fuel + 1) w m ep kw).1.calls = w.calls + 1 ∧
    (make_request srv (fuel + 1) w m ep kw).1.client = w.client := by
  have hb : (decide (400 ≤ st) && decide (st < 600)) = true := by simp [h1, h2]
  by_cases hq : st = 401
  · subst hq
    simp [make_request, sessionRequest, handle_response, h0, hb, h3 rfl]
  · have hne : (st == 401) = false := by simp [hq]
    simp [make_request, sessionRequest, handle_response, h0, hb, hne]

/-- C5 amended witness: a 404 against `clientA` is surfaced as the typed error
after exactly one network call. -/
theorem non401_error_no_retry_witness :
    (make_request (fun _ => NetEvent.resp 404 none) 10 (World.fresh clientA)
      "GET" "/api/users" {}).2 = Outcome.exn (PyErr.httpError 404 none) ∧
    (make_request (fun _ => NetEvent.resp 404 none) 10 (World.fresh clientA)
      "GET" "/api/users" {}).1.calls = 1 := by
  have h := non401_error_no_retry (fun _ => NetEvent.resp 404 none) (World.fresh clientA)
    "GET" "/api/users" {} 404 none 9 rfl (by decide) (by decide) (by intro h; cases h)
  exact ⟨h.1, h.2.1⟩

/-- C8: the multipart upload is claimed to go out with no client-forced
Content-Type, but the request that `upload_file` actually hands to the
transport still carries the session default `Content-Type: application/json`:
the deletion in `upload_file` touches only the per-call header dict (which
never contains Content-Type, `_get_headers` yielding Authorization alone),
the session-level default survives the merge, and requests then keeps the
existing Content-Type instead of setting the multipart boundary one.  The
Authorization part of the claim does hold. -/
theorem upload_forced_json_content_type :
    ((upload_file srvOk200 (World.fresh clientA) "/api/documents" none).1.sent.map
      (fun q => (hGet q.headers "Content-Type", hGet q.headers "Authorization",
        q.isMultipart))) =
      [(some "application/json", some "Bearer A1", true)] := rfl

/-- One unfolding step of `_make_request` when the first response is 401 with a
refresh token held and the refresh attempt diverges: the whole call diverges. -/
theorem make_request_401_diverge (srv : Server) (f : Nat) (w : World) (m ep : String)
    (kw : ReqKwargs) (hs : srv w.calls = NetEvent.resp 401 none)
    (hrt : truthy w.client.refresh_token = true)
    (hdiv : (refresh_access_token srv f (afterFirst401 w m ep kw)).2 = Outcome.diverge) :
    make_request srv (f + 1) w m ep kw =
      ((refresh_access_token srv f (afterFirst401 w m ep kw)).1, Outcome.diverge) := by
  rcases hr : refresh_access_token srv f (afterFirst401 w m ep kw) with ⟨w3, o3⟩
  rw [hr] at hdiv
  simp only at hdiv
  subst hdiv
  simp only [make_request, sessionRequest, hs, handle_response, afterFirst401] at hr ⊢
  simp only [hrt, hr]
  norm_num
  rw [hr]

/-- One unfolding step of `refresh_access_token` when the refresh token is held
and the underlying refresh request diverges: the refresh diverges. -/
theorem refresh_step_diverge (srv : Server) (f : Nat) (w : World)
    (hrt : truthy w.client.refresh_token = true)
    (hdiv : (make_request srv f w "POST" "/api/auth/refresh"
        { jsonBody := some (Json.obj
            [("refreshToken", w.client.refresh_token.getD Json.null)]) }).2 =
      Outcome.diverge) :
    refresh_access_token srv (f + 1) w =
      ((make_request srv f w "POST" "/api/auth/refresh"
        { jsonBody := some (Json.obj
            [("refreshToken", w.client.refresh_token.getD Json.null)]) }).1,
        Outcome.diverge) := by
  rcases hr : make_request srv f w "POST" "/api/auth/refresh"
      { jsonBody := some (Json.obj
          [("refreshToken", w.client.refresh_token.getD Json.null)]) } with ⟨w1, o1⟩
  rw [hr] at hdiv
  simp only at hdiv
  subst hdiv
  simp only [refresh_access_token, hrt, hr]
  simp

/-- Against a server that answers 401 to every request — the refresh endpoint
included — `_make_request` and `refresh_access_token` recurse into each other
forever while a refresh token is held: no fuel completes the run, and the
number of network calls grows beyond any bound as the fuel does. -/
theorem all401_aux (srv : Server) (hsrv : ∀ n, srv n = NetEvent.resp 401 none) :
    ∀ fuel : Nat,
      (∀ (w : World) (m ep : String) (kw : ReqKwargs),
        truthy w.client.refresh_token = true →
        (make_request srv fuel w m ep kw).2 = Outcome.diverge ∧
        fuel + 2 * w.calls ≤ 2 * (make_request srv fuel w m ep kw).1.calls) ∧
      (∀ w : World,
        truthy w.client.refresh_token = true →
        (refresh_access_token srv fuel w).2 = Outcome.diverge ∧
        fuel + 2 * w.calls ≤ 2 * (refresh_access_token srv fuel w).1.calls + 1) := by
  intro fuel
  induction fuel with
  | zero =>
    constructor
    · intro w m ep kw _
      exact ⟨rfl, by simp [make_request]⟩
    · intro w _
      refine ⟨rfl, ?_⟩
      simp only [refresh_access_token]
      omega
  | succ f ih =>
    constructor
    · intro w m ep kw hrt
      have hmid : truthy (afterFirst401 w m ep kw).client.refresh_token = true := by
        simpa [afterFirst401] using hrt
      obtain ⟨hdiv, hle⟩ := ih.2 (afterFirst401 w m ep kw) hmid
      have hstep := make_request_401_diverge srv f w m ep kw (hsrv w.calls) hrt hdiv
      refine ⟨by rw [hstep], ?_⟩
      have hc2 : (make_request srv (f + 1) w m ep kw).1.calls =
          (refresh_access_token srv f (afterFirst401 w m ep kw)).1.calls := by
        rw [hstep]
      rw [hc2]
      have hcalls : (afterFirst401 w m ep kw).calls = w.calls + 1 := rfl
      rw [hcalls] at hle
      omega
    · intro w hrt
      obtain ⟨hdiv, hle⟩ := (ih.1 w "POST" "/api/auth/refresh"
        { jsonBody := some (Json.obj
            [("refreshToken", w.client.refresh_token.getD Json.null)]) } hrt)
      have hstep := refresh_step_diverge srv f w hrt hdiv
      refine ⟨by rw [hstep], ?_⟩
      have hc2 : (refresh_access_token srv (f + 1) w).1.calls =
          (make_request srv f w "POST" "/api/auth/refresh"
            { jsonBody := some (Json.obj
                [("refreshToken", w.client.refresh_token.getD Json.null)]) }).1.calls := by
        rw [hstep]
      rw [hc2]
      omega

/-- C2: the claimed bound — at most two executions of the original request and
at most one refresh attempt, terminating for every status sequence — fails on
the code: when the server answers 401 to every request (the refresh endpoint
included) while a refresh token is held, `_make_request` and
`refresh_access_token` recurse into each other without bound (in Python, until
the interpreter's recursion limit aborts the call), issuing ever more network
calls: no fuel completes the run and the call count grows with the fuel. -/
theorem refresh_loop_on_repeated_401 (fuel : Nat) :
    (make_request srv401 fuel (World.fresh clientA) "GET" "/api/users" {}).2 =
      Outcome.diverge ∧
    fuel ≤ 2 * (make_request srv401 fuel (World.fresh clientA) "GET" "/api/users" {}).1.calls := by
  have h := (all401_aux srv401 (fun _ => rfl) fuel).1 (World.fresh clientA) "GET" "/api/users" {}
    rfl
  simpa using h

/-- C3: code-bug evidence.  After a 401 whose refresh succeeds (storing the
fresh pair `A2`/`R2`), a failing retry (500) is caught by the same `except`
block that was meant for refresh failures: the code logs "Token refresh
failed" for an error that is not one, forces `logout()`, and so clears all
three session fields — instead of keeping the newly refreshed tokens as the
claimed state machine requires.  The retry's failure itself is surfaced. -/
theorem retry_failure_forces_logout :
    (make_request srvRetry500 10 (World.fresh clientA) "GET" "/api/users" {}).2 =
      Outcome.exn (PyErr.httpError 500 none) ∧
    (make_request srvRetry500 10 (World.fresh clientA) "GET" "/api/users" {}).1.client.access_token
      = none ∧
    (make_request srvRetry500 10 (World.fresh clientA) "GET" "/api/users" {}).1.client.refresh_token
      = none ∧
    (make_request srvRetry500 10 (World.fresh clientA) "GET" "/api/users" {}).1.client.user
      = none ∧
    (make_request srvRetry500 10 (World.fresh clientA) "GET" "/api/users" {}).1.logs =
      [ "Access token expired, attempting refresh..."
      , "Access token refreshed successfully"
      , "Token refresh failed"
      , "Logged out successfully"] :=
  ⟨rfl, rfl, rfl, rfl, rfl⟩

/-- C4: for every call through `_make_request` answered 401 while a refresh
token is held, whose refresh attempt is then rejected by the server (an
HTTP-error status other than 401), and whose logout notification is answered
with any non-401 status: the call fails with the refresh attempt's own
`HTTPError`, and all three session fields end up absent (`logout()` ran),
after exactly three network calls — original, refresh, logout notification. -/
theorem refresh_failure_clears_session (srv : Server) (w : World) (m ep : String)
    (kw : ReqKwargs) (b1 b2 bN : Option Json) (st2 stN : Nat) (fuel : Nat)
    (hrt : truthy w.client.refresh_token = true)
    (h0 : srv w.calls = NetEvent.resp 401 b1)
    (h1 : srv (w.calls + 1) = NetEvent.resp st2 b2)
    (h2a : 400 ≤ st2) (h2b : st2 < 600) (h2c : st2 ≠ 401)
    (h3 : srv (w.calls + 2) = NetEvent.resp stN bN) (h3c : stN ≠ 401) :
    (make_request srv (fuel + 3) w m ep kw).2 = Outcome.exn (PyErr.httpError st2 b2) ∧
    (make_request srv (fuel + 3) w m ep kw).1.client.access_token = none ∧
    (make_request srv (fuel + 3) w m ep kw).1.client.refresh_token = none ∧
    (make_request srv (fuel + 3) w m ep kw).1.client.user = none ∧
    (make_request srv (fuel + 3) w m ep kw).1.calls = w.calls + 3 := by
  have e3 : fuel + 3 = ((fuel + 1) + 1) + 1 := rfl
  rw [e3]
  have hb2 : (decide (400 ≤ st2) && decide (st2 < 600)) = true := by simp [h2a, h2b]
  have hne2 : (st2 == 401) = false := by simp [h2c]
  have hneN : (stN == 401) = false := by simp [h3c]
  by_cases hN : 400 ≤ stN ∧ stN < 600
  · have hbN : (decide (400 ≤ stN) && decide (stN < 600)) = true := by simp [hN.1, hN.2]
    simp [make_request, refresh_access_token, logout, sessionRequest, handle_response,
      h0, h1, h3, hrt, hb2, hne2, hneN, hbN]
  · have hbN : (decide (400 ≤ stN) && decide (stN < 600)) = false := by
      rcases Decidable.not_and_iff_or_not.mp hN with h | h <;> simp [h]
    simp [make_request, refresh_access_token, logout, sessionRequest, handle_response,
      h0, h1, h3, hrt, hb2, hne2, hneN, hbN]

/-- C4 witness: `clientA` hits a 401, the refresh is rejected with 400, the
logout notification gets a 200; the call fails with the refresh rejection and
every session field is cleared after three network calls. -/
theorem refresh_failure_clears_session_witness :
    (make_request srvRefreshRejected 10 (World.fresh clientA) "GET" "/api/users" {}).2 =
      Outcome.exn (PyErr.httpError 400 (some refreshRejectedBody)) ∧
    (make_request srvRefreshRejected 10 (World.fresh clientA)
      "GET" "/api/users" {}).1.client.access_token = none ∧
    (make_request srvRefreshRejected 10 (World.fresh clientA)
      "GET" "/api/users" {}).1.client.refresh_token = none ∧
    (make_request srvRefreshRejected 10 (World.fresh clientA)
      "GET" "/api/users" {}).1.client.user = none ∧
    (make_request srvRefreshRejected 10 (World.fresh clientA)
      "GET" "/api/users" {}).1.calls = 3 := by
  have h := refresh_failure_clears_session srvRefreshRejected (World.fresh clientA)
    "GET" "/api/users" {} none (some refreshRejectedBody) none 400 200 7
    rfl rfl rfl (by decide) (by decide) (by decide) rfl (by decide)
  exact h

/-- C1: for every call through `_make_request` (holding string tokens, the
session's default JSON headers, and no extra caller headers, as every public
verb method issues) whose first execution is answered 401 while a refresh
token is held, and whose refresh succeeds with a fresh token pair: the routine
re-executes the original request exactly once, with an Authorization header
carrying the newly issued access token — the sent-request trace is exactly the
original request, the refresh call, and the one retry — and the routine's
result is that retry's outcome: its decoded body when the retry status is a
success, the retry's typed `HTTPError` when it is an error status (in which
case a fourth request, the logout notification, also goes out). -/
theorem retry_once_with_new_token (srv : Server) (w : World) (m ep : String)
    (payload pr : Option Json) (a0 rt newA newR : String) (b1 b3 : Option Json)
    (st3 : Nat) (fuel : Nat)
    (hacc : w.client.access_token = some (Json.str a0)) (ha0 : a0 ≠ "")
    (hrt : w.client.refresh_token = some (Json.str rt)) (hrtne : rt ≠ "")
    (hsess : w.client.sessionHeaders =
      [("Content-Type", "application/json"), ("Accept", "application/json")])
    (hA : newA ≠ "") (hR : newR ≠ "")
    (h0 : srv w.calls = NetEvent.resp 401 b1)
    (h1 : srv (w.calls + 1) = NetEvent.resp 200 (some (Json.obj
        [("accessToken", Json.str newA), ("refreshToken", Json.str newR)])))
    (h2 : srv (w.calls + 2) = NetEvent.resp st3 b3)
    (h3 : srv (w.calls + 3) = NetEvent.resp 500 none) :
    (¬(400 ≤ st3 ∧ st3 < 600) →
      (make_request srv (fuel + 3) w m ep { jsonBody := payload, params := pr }).2 =
        Outcome.ok (b3.getD (Json.obj [])) ∧
      (make_request srv (fuel + 3) w m ep { jsonBody := payload, params := pr }).1.sent =
        w.sent ++
          [ jsonReq m (w.client.base_url ++ ep) a0 payload pr
          , jsonReq "POST" (w.client.base_url ++ "/api/auth/refresh") a0
              (some (Json.obj [("refreshToken", Json.str rt)])) none
          , jsonReq m (w.client.base_url ++ ep) newA payload pr] ∧
      (make_request srv (fuel + 3) w m ep { jsonBody := payload, params := pr }).1.calls =
        w.calls + 3 ∧
      (make_request srv (fuel + 3) w m ep
        { jsonBody := payload, params := pr }).1.client.access_token =
        some (Json.str newA) ∧
      (make_request srv (fuel + 3) w m ep
        { jsonBody := payload, params := pr }).1.client.refresh_token =
        some (Json.str newR)) ∧
    (400 ≤ st3 → st3 < 600 →
      (make_request srv (fuel + 3) w m ep { jsonBody := payload, params := pr }).2 =
        Outcome.exn (PyErr.httpError st3 b3) ∧
      (make_request srv (fuel + 3) w m ep { jsonBody := payload, params := pr }).1.sent =
        w.sent ++
          [ jsonReq m (w.client.base_url ++ ep) a0 payload pr
          , jsonReq "POST" (w.client.base_url ++ "/api/auth/refresh") a0
              (some (Json.obj [("refreshToken", Json.str rt)])) none
          , jsonReq m (w.client.base_url ++ ep) newA payload pr
          , jsonReq "POST" (w.client.base_url ++ "/api/auth/logout") newA
              (some (Json.obj [("refreshToken", Json.str newR)])) none] ∧
      (make_request srv (fuel + 3) w m ep { jsonBody := payload, params := pr }).1.calls =
        w.calls + 4) := by
  have e3 : fuel + 3 = ((fuel + 1) + 1) + 1 := rfl
  have h2' : srv (w.calls + 1 + 1) = NetEvent.resp st3 b3 := h2
  have h3' : srv (w.calls + 1 + 1 + 1) = NetEvent.resp 500 none := h3
  have ha0b : (a0 != "") = true := by simp [ha0]
  have hrtb : (rt != "") = true := by simp [hrtne]
  have hAb : (newA != "") = true := by simp [hA]
  have hRb : (newR != "") = true := by simp [hR]
  constructor
  · intro hs
    have hb3 : (decide (400 ≤ st3) && decide (st3 < 600)) = false := by
      rcases Decidable.not_and_iff_or_not.mp hs with h | h <;> simp [h]
    rw [e3]
    refine ⟨?_, ?_, ?_, ?_, ?_⟩ <;>
      simp [make_request, refresh_access_token, sessionRequest, handle_response,
        TouristHubClient.get_headers, hUpdate, hSet, hContains, truthy, Json.pyStr,
        Json.getItem, List.lookup, jsonReq,
        hacc, hrt, hsess, ha0b, hrtb, hAb, hRb, h0, h1, h2', h3', hb3]
  · intro hs1 hs2
    have hb3 : (decide (400 ≤ st3) && decide (st3 < 600)) = true := by simp [hs1, hs2]
    have hne3 : (st3 == 401) = false ∨ (st3 == 401) = true := by
      rcases Bool.eq_false_or_eq_true (st3 == 401) with h | h
      · exact Or.inr h
      · exact Or.inl h
    rw [e3]
    refine ⟨?_, ?_, ?_⟩ <;>
      simp [make_request, refresh_access_token, logout, sessionRequest, handle_response,
        TouristHubClient.get_headers, hUpdate, hSet, hContains, truthy, Json.pyStr,
        Json.getItem, List.lookup, jsonReq,
        hacc, hrt, hsess, ha0b, hrtb, hAb, hRb, h0, h1, h2', h3', hb3]

/-- C1 witness: `clientA` hits a 401 on a GET, the refresh succeeds with
`A2`/`R2`, the retry is answered 200 with a body: the result is that body, the
trace is exactly original–refresh–retry with the retry carrying Bearer `A2`,
and the fresh tokens are stored. -/
theorem retry_once_with_new_token_witness :
    (make_request srvRetryOk 10 (World.fresh clientA) "GET" "/api/users"
      { jsonBody := none, params := none }).2 =
      Outcome.ok (Json.obj [("ok", Json.bool true)]) ∧
    (make_request srvRetryOk 10 (World.fresh clientA) "GET" "/api/users"
      { jsonBody := none, params := none }).1.sent =
      [ jsonReq "GET" "http://localhost:3000/api/users" "A1" none none
      , jsonReq "POST" "http://localhost:3000/api/auth/refresh" "A1"
          (some (Json.obj [("refreshToken", Json.str "R1")])) none
      , jsonReq "GET" "http://localhost:3000/api/users" "A2" none none] ∧
    (make_request srvRetryOk 10 (World.fresh clientA) "GET" "/api/users"
      { jsonBody := none, params := none }).1.client.access_token =
      some (Json.str "A2") := by
  have h := (retry_once_with_new_token srvRetryOk (World.fresh clientA) "GET" "/api/users"
    none none "A1" "R1" "A2" "R2" none (some (Json.obj [("ok", Json.bool true)])) 200 7
    rfl (by decide) rfl (by decide) rfl (by decide) (by decide)
    rfl rfl rfl rfl).1 (by decide)
  refine ⟨h.1, ?_, h.2.2.2.1⟩
  have hsent := h.2.1
  rw [show (World.fresh clientA).client.base_url = "http://localhost:3000" from rfl,
    show (World.fresh clientA).sent = [] from rfl] at hsent
  simpa using hsent

/-- C7 counterexample: a failing `login` call does not always leave the session
state unchanged.  `clientA` (already authenticated with `A1`/`R1`/a user) calls
`login` with bad credentials; the server answers 401, so `_make_request`
attempts a refresh, the refresh is rejected with 400, `logout()` fires, and
the failed login call has cleared every session field. -/
theorem login_failure_mutates_state_cx :
    (login srvRefreshRejected 10 (World.fresh clientA) "user@example.com" "wrongpw").2 =
      Outcome.exn (PyErr.httpError 400 (some refreshRejectedBody)) ∧
    clientA.access_token = some (Json.str "A1") ∧
    clientA.refresh_token = some (Json.str "R1") ∧
    clientA.user = some (Json.obj [("userId", Json.str "U1")]) ∧
    (login srvRefreshRejected 10 (World.fresh clientA)
      "user@example.com" "wrongpw").1.client.access_token = none ∧
    (login srvRefreshRejected 10 (World.fresh clientA)
      "user@example.com" "wrongpw").1.client.refresh_token = none ∧
    (login srvRefreshRejected 10 (World.fresh clientA)
      "user@example.com" "wrongpw").1.client.user = none :=
  ⟨rfl, rfl, rfl, rfl, rfl, rfl, rfl⟩

/-- C7 amended: for every `login` call made while no refresh token is held
(so no refresh path can run), a failure of the login request itself — an
HTTP-error status or a transport failure — is propagated and the session state
is exactly what it was before the call; on a 200 response whose body carries
the token pair and a user record with the subscripted name fields, the tokens
and user record from the response are stored. -/
theorem login_state_contract (srv : Server) (w : World) (em pw : String) (fuel : Nat)
    (hrt : truthy w.client.refresh_token = false) :
    (∀ (st : Nat) (b : Option Json), 400 ≤ st → st < 600 →
      srv w.calls = NetEvent.resp st b →
      (login srv (fuel + 1) w em pw).2 = Outcome.exn (PyErr.httpError st b) ∧
      (login srv (fuel + 1) w em pw).1.client = w.client) ∧
    (∀ msg : String, srv w.calls = NetEvent.transportFail msg →
      (login srv (fuel + 1) w em pw).2 = Outcome.exn (PyErr.transportError msg) ∧
      (login srv (fuel + 1) w em pw).1.client = w.client) ∧
    (∀ (tokA tokR u f l t : Json),
      srv w.calls = NetEvent.resp 200 (some (Json.obj
        [("accessToken", tokA), ("refreshToken", tokR), ("user", u)])) →
      u.getItem "firstName" = Except.ok f →
      u.getItem "lastName" = Except.ok l →
      u.getItem "userType" = Except.ok t →
      (login srv (fuel + 1) w em pw).2 = Outcome.ok (Json.obj
        [("accessToken", tokA), ("refreshToken", tokR), ("user", u)]) ∧
      (login srv (fuel + 1) w em pw).1.client.access_token = some tokA ∧
      (login srv (fuel + 1) w em pw).1.client.refresh_token = some tokR ∧
      (login srv (fuel + 1) w em pw).1.client.user = some u) := by
  refine ⟨?_, ?_, ?_⟩
  · intro st b h1 h2 hsrv
    have hb : (decide (400 ≤ st) && decide (st < 600)) = true := by simp [h1, h2]
    simp [login, make_request, sessionRequest, handle_response, hsrv, hb, hrt]
  · intro msg hsrv
    simp [login, make_request, sessionRequest, handle_response, hsrv]
  · intro tokA tokR u f l t hsrv hf hl ht
    have hA : (Json.obj [("accessToken", tokA), ("refreshToken", tokR),
        ("user", u)]).getItem "accessToken" = Except.ok tokA := rfl
    have hB : (Json.obj [("accessToken", tokA), ("refreshToken", tokR),
        ("user", u)]).getItem "refreshToken" = Except.ok tokR := rfl
    have hU : (Json.obj [("accessToken", tokA), ("refreshToken", tokR),
        ("user", u)]).getItem "user" = Except.ok u := rfl
    simp [login, make_request, sessionRequest, handle_response, hsrv,
      hA, hB, hU, hf, hl, ht]

/-- C7 amended witness: a fresh client logs in against a healthy login
endpoint and the tokens and user record from the response are stored. -/
theorem login_state_contract_witness :
    (login srvLoginOk 10 (World.fresh (TouristHubClient.init "http://localhost:3000"))
      "user@example.com" "password123").1.client.access_token = some (Json.str "A1") ∧
    (login srvLoginOk 10 (World.fresh (TouristHubClient.init "http://localhost:3000"))
      "user@example.com" "password123").1.client.refresh_token = some (Json.str "R1") ∧
    (login srvLoginOk 10 (World.fresh (TouristHubClient.init "http://localhost:3000"))
      "user@example.com" "password123").1.client.user = some (Json.obj
        [ ("userId", Json.str "U1")
        , ("firstName", Json.str "Jane")
        , ("lastName", Json.str "Doe")
        , ("userType", Json.str "TOURIST")]) := by
  have h := (login_state_contract srvLoginOk
    (World.fresh (TouristHubClient.init "http://localhost:3000"))
    "user@example.com" "password123" 9 rfl).2.2
    (Json.str "A1") (Json.str "R1")
    (Json.obj
      [ ("userId", Json.str "U1")
      , ("firstName", Json.str "Jane")
      , ("lastName", Json.str "Doe")
      , ("userType", Json.str "TOURIST")])
    (Json.str "Jane") (Json.str "Doe") (Json.str "TOURIST")
    rfl rfl rfl rfl
  exact ⟨h.2.1, h.2.2.1, h.2.2.2⟩

end TouristHub
